import Mathlib

/-!
Verification of the device-parameter extraction module
(`qiskit/providers/aer/noise/device/parameters.py`).

The module extracts calibration parameters (gate errors, gate durations,
readout errors, relaxation times T1/T2, qubit frequency) from a backend
properties report.  We embed the module shallowly:

* Numeric values are rationals (`ℚ`); the unit tables contain only exact
  powers of ten, so all the scalings in the claims are exact.
* The sentinel `numpy.inf` used by `thermal_relaxation_values` is embedded
  by the two-constructor type `PVal` (a rational or infinity).
* A Python object optionally carrying `value` / `unit` attributes is a
  `Param` with `Option` fields; `hasattr(x, a)` becomes `x.a ≠ none`.
* A raised exception (attribute access on `None`) is embedded as `none` in
  an `Option` result; all normally-returning code yields `some`.
-/

/-- A calibration value: a rational number or positive infinity
(the embedding of `numpy.inf`). -/
inductive PVal where
  | inf : PVal
  | val : ℚ → PVal
deriving DecidableEq, Repr

/-- Python `min` on calibration values: `inf` is the top element. -/
def PVal.min : PVal → PVal → PVal
  | PVal.inf, b => b
  | PVal.val a, PVal.inf => PVal.val a
  | PVal.val a, PVal.val b => if a ≤ b then PVal.val a else PVal.val b

/-- Doubling, as in the Python expression `2 * t1`; `2 * inf = inf`. -/
def PVal.two_mul : PVal → PVal
  | PVal.inf => PVal.inf
  | PVal.val a => PVal.val (2 * a)

/-- Boolean order on calibration values, with `inf` as the top element. -/
def PVal.leq : PVal → PVal → Bool
  | _, PVal.inf => true
  | PVal.inf, PVal.val _ => false
  | PVal.val a, PVal.val b => decide (a ≤ b)

/-- A named parameter record (`Nduv`-like): a name, an optional numeric
value and an optional unit label.  A `none` field embeds the absence of
the corresponding Python attribute. -/
structure Param where
  name : String
  value : Option ℚ
  unit : Option String
deriving DecidableEq, Repr

/-- A gate record of the properties report: gate name, qubit indices, and
an ordered list of named parameters. -/
structure GateRecord where
  gate : String
  qubits : List ℕ
  parameters : List Param
deriving DecidableEq, Repr

/-- The backend properties report: an ordered list of gate records and an
ordered list of qubit records (each a list of named parameters). -/
structure Properties where
  gates : List GateRecord
  qubits : List (List Param)
deriving DecidableEq, Repr

/-- Dictionary `get` with a fallback, as in Python `d.get(u, 1)`. -/
def dictGet (d : List (String × ℚ)) (u : String) (dflt : ℚ) : ℚ :=
  match d.lookup u with
  | some v => v
  | none => dflt

/-- The `_MICROSECOND_UNITS` table. -/
def _MICROSECOND_UNITS : List (String × ℚ) :=
  [("s", 1000000), ("ms", 1000), ("µs", 1), ("us", 1), ("ns", (1 : ℚ)/1000)]

/-- The `_NANOSECOND_UNITS` table. -/
def _NANOSECOND_UNITS : List (String × ℚ) :=
  [("s", 1000000000), ("ms", 1000000), ("µs", 1000), ("us", 1000), ("ns", 1)]

/-- The `_GHZ_UNITS` table. -/
def _GHZ_UNITS : List (String × ℚ) :=
  [("Hz", (1 : ℚ)/1000000000), ("KHz", (1 : ℚ)/1000000),
   ("MHz", (1 : ℚ)/1000), ("GHz", 1), ("THz", 1000)]

/-- The helper `_check_for_item`: filter the list for records with the
given name; return `None` if the filtered list is empty, otherwise its
first element. -/
def _check_for_item (lst : List Param) (nm : String) : Option Param :=
  match lst.filter (fun item => item.name == nm) with
  | [] => none
  | x :: _ => some x

/-- Scaling by a unit table as done at the use sites: the value is
multiplied only when the parameter has a `unit` attribute, and the scale
defaults to `1` for an unrecognized label. -/
def scaleOf (table : List (String × ℚ)) (u : Option String) : ℚ :=
  match u with
  | some s => dictGet table s 1
  | none => 1

/-- Per-gate body of `gate_param_values`: look up `gate_length` (scaled to
nanoseconds when a unit is present) and `gate_error` (verbatim), each
defaulting to `None`. -/
def gateParamEntry (gate : GateRecord) : String × List ℕ × Option ℚ × Option ℚ :=
  let name := gate.gate
  let qubits := gate.qubits
  let time_param := _check_for_item gate.parameters "gate_length"
  let gate_length : Option ℚ :=
    match time_param with
    | some p =>
      match p.value with
      | some v => some (v * scaleOf _NANOSECOND_UNITS p.unit)
      | none => none
    | none => none
  let error_param := _check_for_item gate.parameters "gate_error"
  let gate_error : Option ℚ :=
    match error_param with
    | some p => p.value
    | none => none
  (name, qubits, gate_length, gate_error)

/-- The function `gate_param_values`. -/
def gate_param_values (properties : Properties) :
    List (String × List ℕ × Option ℚ × Option ℚ) :=
  properties.gates.map gateParamEntry

/-- Per-gate body of `gate_error_values`: the `gate_error` value verbatim,
defaulting to `None`. -/
def gateErrorEntry (gate : GateRecord) : String × List ℕ × Option ℚ :=
  let name := gate.gate
  let qubits := gate.qubits
  let value : Option ℚ :=
    match _check_for_item gate.parameters "gate_error" with
    | some p => p.value
    | none => none
  (name, qubits, value)

/-- The function `gate_error_values`. -/
def gate_error_values (properties : Properties) :
    List (String × List ℕ × Option ℚ) :=
  properties.gates.map gateErrorEntry

/-- Per-gate body of `gate_length_values`: the `gate_length` value scaled
to nanoseconds when a unit is present, defaulting to `None`. -/
def gateLengthEntry (gate : GateRecord) : String × List ℕ × Option ℚ :=
  let name := gate.gate
  let qubits := gate.qubits
  let value : Option ℚ :=
    match _check_for_item gate.parameters "gate_length" with
    | some p =>
      match p.value with
      | some v => some (v * scaleOf _NANOSECOND_UNITS p.unit)
      | none => none
    | none => none
  (name, qubits, value)

/-- The function `gate_length_values`. -/
def gate_length_values (properties : Properties) :
    List (String × List ℕ × Option ℚ) :=
  properties.gates.map gateLengthEntry

/-- Per-qubit body of `readout_error_values`: the `readout_error` value
verbatim, defaulting to `None`. -/
def readoutEntry (qubit_props : List Param) : Option ℚ :=
  match _check_for_item qubit_props "readout_error" with
  | some p => p.value
  | none => none

/-- The function `readout_error_values`. -/
def readout_error_values (properties : Properties) : List (Option ℚ) :=
  properties.qubits.map readoutEntry

/-- Loading a T1/T2 value in microseconds: default `inf` when the
parameter is absent or has no `value` attribute, otherwise the value
scaled by the microsecond table when a `unit` attribute is present. -/
def loadMicro (p : Option Param) : PVal :=
  match p with
  | some q =>
    match q.value with
    | some v => PVal.val (v * scaleOf _MICROSECOND_UNITS q.unit)
    | none => PVal.inf
  | none => PVal.inf

/-- Per-qubit body of `thermal_relaxation_values`.  Faithful to the
source, including its bug: the guard of the frequency block tests
`t2_params` (not `freq_params`) for a `value` attribute, and inside the
block `freq_params.value` is read unconditionally, raising
`AttributeError` (embedded as `none`) when `freq_params` is `None` or has
no `value`.  On every success path the final T2 is `min (2 * t1) t2`. -/
def thermalRelaxationQubit (qubit_props : List Param) :
    Option (PVal × PVal × PVal) :=
  let t1_params := _check_for_item qubit_props "T1"
  let t2_params := _check_for_item qubit_props "T2"
  let freq_params := _check_for_item qubit_props "frequency"
  let t1 := loadMicro t1_params
  let t2 := loadMicro t2_params
  match t2_params with
  | some p2 =>
    match p2.value with
    | some _ =>
      match freq_params with
      | some pf =>
        match pf.value with
        | some v =>
          let freq := PVal.val (v * scaleOf _GHZ_UNITS pf.unit)
          some (t1, PVal.min (PVal.two_mul t1) t2, freq)
        | none => none
      | none => none
    | none => some (t1, PVal.min (PVal.two_mul t1) t2, PVal.inf)
  | none => some (t1, PVal.min (PVal.two_mul t1) t2, PVal.inf)

/-- The loop of `thermal_relaxation_values`: per-qubit tuples collected in
order; a raise at any qubit aborts the whole call. -/
def thermalList : List (List Param) → Option (List (PVal × PVal × PVal))
  | [] => some []
  | q :: rest =>
    match thermalRelaxationQubit q with
    | none => none
    | some v =>
      match thermalList rest with
      | none => none
      | some vs => some (v :: vs)

/-- The function `thermal_relaxation_values`. -/
def thermal_relaxation_values (properties : Properties) :
    Option (List (PVal × PVal × PVal)) :=
  thermalList properties.qubits

/-- Helper: `_check_for_item` returns the absence marker exactly when no
record in the list carries the target name. -/
theorem check_for_item_eq_none_iff (lst : List Param) (nm : String) :
    _check_for_item lst nm = none ↔ ∀ p ∈ lst, p.name ≠ nm := by
  constructor
  · intro h p hp hname
    have hmem : p ∈ lst.filter (fun item => item.name == nm) :=
      List.mem_filter.mpr ⟨hp, by simp [hname]⟩
    unfold _check_for_item at h
    rcases hfil : lst.filter (fun item => item.name == nm) with _ | ⟨x, xs⟩
    · rw [hfil] at hmem; simp at hmem
    · rw [hfil] at h; simp at h
  · intro hall
    unfold _check_for_item
    have hfil : lst.filter (fun item => item.name == nm) = [] :=
      List.filter_eq_nil_iff.mpr (fun a ha => by simp [hall a ha])
    rw [hfil]

/-- Helper: when the list splits as `pre ++ p :: post` with no match in
`pre` and `p` matching, `_check_for_item` returns `p`, whatever `post`
holds. -/
theorem check_for_item_first_match (pre : List Param) (p : Param) (post : List Param)
    (nm : String) (hp : p.name = nm) (hpre : ∀ q ∈ pre, q.name ≠ nm) :
    _check_for_item (pre ++ p :: post) nm = some p := by
  unfold _check_for_item
  have h1 : pre.filter (fun item => item.name == nm) = [] :=
    List.filter_eq_nil_iff.mpr (fun a ha => by simp [hpre a ha])
  rw [List.filter_append, h1, List.filter_cons_of_pos (by simp [hp]), List.nil_append]

/-- Helper: a record returned by `_check_for_item` belongs to the list and
carries the target name. -/
theorem check_for_item_mem (lst : List Param) (nm : String) (p : Param)
    (h : _check_for_item lst nm = some p) : p ∈ lst ∧ p.name = nm := by
  unfold _check_for_item at h
  rcases hfil : lst.filter (fun item => item.name == nm) with _ | ⟨x, xs⟩ <;> rw [hfil] at h
  · cases h
  · simp at h
    subst h
    have hx : x ∈ lst.filter (fun item => item.name == nm) := by
      rw [hfil]; exact List.mem_cons_self _ _
    have hm := List.mem_filter.mp hx
    exact ⟨hm.1, by simpa using hm.2⟩

/-- Helper: whenever the per-qubit extraction returns, the first component
is the loaded T1 and the second is the clamp `min (2 * T1) T2` of the
loaded values. -/
theorem thermal_qubit_snd (q : List Param) (t1 t2 f : PVal)
    (h : thermalRelaxationQubit q = some (t1, t2, f)) :
    t1 = loadMicro (_check_for_item q "T1") ∧
    t2 = PVal.min (PVal.two_mul (loadMicro (_check_for_item q "T1")))
                  (loadMicro (_check_for_item q "T2")) := by
  simp only [thermalRelaxationQubit] at h
  rcases h2 : _check_for_item q "T2" with _ | p2 <;> simp only [h2] at h
  · simp at h
    exact ⟨h.1.symm, h.2.1.symm⟩
  · rcases hv2 : p2.value with _ | v2 <;> simp only [hv2] at h
    · simp at h
      exact ⟨h.1.symm, h.2.1.symm⟩
    · rcases hf : _check_for_item q "frequency" with _ | pf <;> simp only [hf] at h
      · cases h
      · rcases hvf : pf.value with _ | vf <;> simp only [hvf] at h
        · cases h
        · simp at h
          exact ⟨h.1.symm, h.2.1.symm⟩

/-- Helper: the clamp result is below its first argument in the `PVal`
order. -/
theorem pval_min_leq_left (a b : PVal) : PVal.leq (PVal.min a b) a = true := by
  cases a with
  | inf => cases b <;> simp [PVal.min, PVal.leq]
  | val x =>
    cases b with
    | inf => simp [PVal.min, PVal.leq]
    | val y =>
      by_cases hxy : x ≤ y
      · simp [PVal.min, PVal.leq, hxy]
      · simp [PVal.min, PVal.leq, hxy, le_of_not_le hxy]

/-- Helper: every tuple produced by the qubit loop satisfies
`T2 ≤ 2 * T1`. -/
theorem thermalList_t2 (qs : List (List Param)) (res : List (PVal × PVal × PVal))
    (h : thermalList qs = some res) :
    ∀ t ∈ res, PVal.leq t.2.1 (PVal.two_mul t.1) = true := by
  induction qs generalizing res with
  | nil =>
    simp [thermalList] at h
    subst h
    simp
  | cons q rest ih =>
    simp only [thermalList] at h
    rcases hq : thermalRelaxationQubit q with _ | v <;> simp only [hq] at h
    · cases h
    · rcases hr : thermalList rest with _ | vs <;> simp only [hr] at h
      · cases h
      · simp only [Option.some.injEq] at h
        subst h
        intro t ht
        rcases List.mem_cons.mp ht with heq | hmem
        · subst heq
          obtain ⟨a, b, c⟩ := t
          have hsnd := thermal_qubit_snd q a b c hq
          rw [hsnd.2, hsnd.1]
          exact pval_min_leq_left _ _
        · exact ih vs hr t hmem

/-- Helper: a qubit record carrying none of the three names yields the
all-infinity tuple. -/
theorem thermal_qubit_absent (q : List Param)
    (h1 : ∀ p ∈ q, p.name ≠ "T1") (h2 : ∀ p ∈ q, p.name ≠ "T2")
    (h3 : ∀ p ∈ q, p.name ≠ "frequency") :
    thermalRelaxationQubit q = some (PVal.inf, PVal.inf, PVal.inf) := by
  have e1 := (check_for_item_eq_none_iff q "T1").mpr h1
  have e2 := (check_for_item_eq_none_iff q "T2").mpr h2
  have e3 := (check_for_item_eq_none_iff q "frequency").mpr h3
  simp [thermalRelaxationQubit, e1, e2, e3, loadMicro, PVal.min, PVal.two_mul]

/-- Helper: when the qubit loop returns, the tuple at index `i` of the
result is the per-qubit extraction of the record at index `i` of the
input. -/
theorem thermalList_getElem (qs : List (List Param)) (res : List (PVal × PVal × PVal))
    (h : thermalList qs = some res) (i : ℕ) (q : List Param) (hq : qs[i]? = some q) :
    res[i]? = thermalRelaxationQubit q := by
  induction qs generalizing res i with
  | nil => simp at hq
  | cons q0 rest ih =>
    simp only [thermalList] at h
    rcases hq0 : thermalRelaxationQubit q0 with _ | v <;> simp only [hq0] at h
    · cases h
    · rcases hr : thermalList rest with _ | vs <;> simp only [hr] at h
      · cases h
      · simp only [Option.some.injEq] at h
        subst h
        cases i with
        | zero =>
          simp only [List.getElem?_cons_zero, Option.some.injEq] at hq
          subst hq
          simpa using hq0.symm
        | succ n =>
          simp only [List.getElem?_cons_succ] at hq
          simpa using ih vs hr n hq

/-- Claim C1: the claim says `thermal_relaxation_values` looks up and
loads the frequency independently of T2, returning 5.0 GHz for a qubit
whose frequency parameter is 5000 MHz regardless of whether T2 is
present.  The code does not: its frequency block is guarded by
`hasattr(t2_params, 'value')`, so with the frequency parameter present
(5000 MHz) and no T2 parameter, the returned frequency stays `inf`
instead of 5.  This theorem evaluates the code at that failing input. -/
theorem thermal_freq_guard_skips :
    thermal_relaxation_values ⟨[], [[⟨"frequency", some 5000, some "MHz"⟩]]⟩ =
      some [(PVal.inf, PVal.inf, PVal.inf)] := by decide

/-- Claim C2: the claim says no extraction function raises on missing
calibration data, in particular `thermal_relaxation_values` returns
normally on a qubit with a valued T2 but no frequency parameter.  The
code does not: on such a qubit the frequency block runs (its guard tests
`t2_params`) and reads `freq_params.value` with `freq_params = None`,
raising `AttributeError` (embedded as `none`).  This theorem evaluates
the code at that failing input. -/
theorem thermal_raises_without_freq :
    thermal_relaxation_values ⟨[], [[⟨"T2", some 100, some "us"⟩]]⟩ = none := by decide

/-- Claim C3: whenever `thermal_relaxation_values` returns a tuple for a
qubit, its T2 component equals `min (2 * T1) T2` of the loaded values
(each defaulting to infinity when absent or valueless); in particular a
qubit with T1 = 50 us and no T2 yields T2 = 100, and a qubit with
T1 = 100 µs and T2 = 250 µs (and a frequency parameter, which the code
requires once T2 is valued) yields T2 = 200. -/
theorem thermal_t2_clamped (q : List Param) (t1 t2 f : PVal)
    (h : thermalRelaxationQubit q = some (t1, t2, f)) :
    t2 = PVal.min (PVal.two_mul (loadMicro (_check_for_item q "T1")))
                  (loadMicro (_check_for_item q "T2")) ∧
    thermalRelaxationQubit [⟨"T1", some 50, some "us"⟩] =
      some (PVal.val 50, PVal.val 100, PVal.inf) ∧
    thermalRelaxationQubit [⟨"T1", some 100, some "µs"⟩, ⟨"T2", some 250, some "µs"⟩,
      ⟨"frequency", some 5, some "GHz"⟩] =
      some (PVal.val 100, PVal.val 200, PVal.val 5) := by
  refine ⟨(thermal_qubit_snd q t1 t2 f h).2, ?_, ?_⟩
  · simp [thermalRelaxationQubit, loadMicro, _check_for_item, List.filter, scaleOf,
      dictGet, _MICROSECOND_UNITS, List.lookup, PVal.min, PVal.two_mul]
    norm_num
  · simp [thermalRelaxationQubit, loadMicro, _check_for_item, List.filter, scaleOf,
      dictGet, _MICROSECOND_UNITS, _GHZ_UNITS, List.lookup, PVal.min, PVal.two_mul]
    norm_num

/-- Witness for claim C3, at the qubit record with T1 = 50 us only. -/
theorem thermal_t2_clamped_witness :
    PVal.val 100 =
      PVal.min (PVal.two_mul (loadMicro (_check_for_item [⟨"T1", some 50, some "us"⟩] "T1")))
               (loadMicro (_check_for_item [⟨"T1", some 50, some "us"⟩] "T2")) :=
  (thermal_t2_clamped [⟨"T1", some 50, some "us"⟩] (PVal.val 50) (PVal.val 100) PVal.inf
    (by simp [thermalRelaxationQubit, loadMicro, _check_for_item, List.filter, scaleOf,
          dictGet, _MICROSECOND_UNITS, List.lookup, PVal.min, PVal.two_mul]
        norm_num)).1

/-- Claim C4: `gate_param_values` is the element-wise pairwise
combination of `gate_length_values` and `gate_error_values`: the lists
have equal length, the name and qubits agree at every index, and the
four-tuple at index `i` is built from the length at `i` and the error at
`i`, in input order. -/
theorem gate_param_combines (props : Properties) :
    (gate_param_values props).length = (gate_length_values props).length ∧
    (gate_param_values props).length = (gate_error_values props).length ∧
    ∀ (i : ℕ) (nl : String) (ql : List ℕ) (l : Option ℚ) (ne : String) (qe : List ℕ)
      (e : Option ℚ),
      (gate_length_values props)[i]? = some (nl, ql, l) →
      (gate_error_values props)[i]? = some (ne, qe, e) →
      nl = ne ∧ ql = qe ∧ (gate_param_values props)[i]? = some (nl, ql, l, e) := by
  refine ⟨by simp [gate_param_values, gate_length_values],
    by simp [gate_param_values, gate_error_values], ?_⟩
  intro i nl ql l ne qe e hl he
  rcases hg : props.gates[i]? with _ | g
  · simp [gate_length_values, hg] at hl
  · simp [gate_length_values, hg, gateLengthEntry, Prod.mk.injEq] at hl
    simp [gate_error_values, hg, gateErrorEntry, Prod.mk.injEq] at he
    obtain ⟨hnl, hql, hlv⟩ := hl
    obtain ⟨hne, hqe, hev⟩ := he
    subst hnl; subst hql; subst hlv; subst hne; subst hqe; subst hev
    refine ⟨rfl, rfl, ?_⟩
    simp [gate_param_values, hg, gateParamEntry]

/-- Witness for claim C4, at a report with one cx gate carrying both a
gate_length and a gate_error parameter. -/
theorem gate_param_combines_witness :
    (gate_param_values ⟨[⟨"cx", [0, 1],
        [⟨"gate_length", some 100, some "ns"⟩, ⟨"gate_error", some (1/100), none⟩]⟩], []⟩)[0]? =
      some ("cx", [0, 1], some 100, some (1/100)) := by
  have hl : (gate_length_values ⟨[⟨"cx", [0, 1],
      [⟨"gate_length", some 100, some "ns"⟩, ⟨"gate_error", some (1/100), none⟩]⟩], []⟩)[0]? =
      some ("cx", [0, 1], some 100) := by
    simp [gate_length_values, gateLengthEntry, _check_for_item, List.filter, scaleOf,
      dictGet, _NANOSECOND_UNITS, List.lookup]
  have he : (gate_error_values ⟨[⟨"cx", [0, 1],
      [⟨"gate_length", some 100, some "ns"⟩, ⟨"gate_error", some (1/100), none⟩]⟩], []⟩)[0]? =
      some ("cx", [0, 1], some (1/100)) := by
    simp [gate_error_values, gateErrorEntry, _check_for_item, List.filter]
  exact ((gate_param_combines ⟨[⟨"cx", [0, 1],
      [⟨"gate_length", some 100, some "ns"⟩, ⟨"gate_error", some (1/100), none⟩]⟩], []⟩).2.2
    0 "cx" [0, 1] (some 100) "cx" [0, 1] (some (1/100)) hl he).2.2

/-- Claim C5: for every qubit record containing no parameter named T1,
T2 or frequency, inside an arbitrary report on which
`thermal_relaxation_values` returns, the returned list carries the tuple
`(inf, inf, inf)` at that qubit record's index. -/
theorem thermal_absent_inf (props : Properties) (res : List (PVal × PVal × PVal))
    (i : ℕ) (q : List Param)
    (hres : thermal_relaxation_values props = some res)
    (hq : props.qubits[i]? = some q)
    (hbare : ∀ p ∈ q, p.name ≠ "T1" ∧ p.name ≠ "T2" ∧ p.name ≠ "frequency") :
    res[i]? = some (PVal.inf, PVal.inf, PVal.inf) := by
  rw [thermalList_getElem props.qubits res hres i q hq]
  exact thermal_qubit_absent q (fun p hp => (hbare p hp).1)
    (fun p hp => (hbare p hp).2.1) (fun p hp => (hbare p hp).2.2)

/-- Witness for claim C5, at a mixed report whose first qubit carries a
T1 parameter and whose second qubit record is empty: the second output
tuple is all-infinity. -/
theorem thermal_absent_inf_witness :
    [(PVal.val 50, PVal.val 100, PVal.inf),
      (PVal.inf, PVal.inf, PVal.inf)][1]? = some (PVal.inf, PVal.inf, PVal.inf) :=
  thermal_absent_inf ⟨[], [[⟨"T1", some 50, some "us"⟩], []]⟩
    [(PVal.val 50, PVal.val 100, PVal.inf), (PVal.inf, PVal.inf, PVal.inf)] 1 []
    (by simp [thermal_relaxation_values, thermalList, thermalRelaxationQubit, loadMicro,
          _check_for_item, List.filter, scaleOf, dictGet, _MICROSECOND_UNITS, List.lookup,
          PVal.min, PVal.two_mul]
        norm_num)
    rfl (by simp)

/-- Claim C6: for a gate whose gate_length parameter is present with a
value, `gate_length_values` returns the value times 1e6 for unit `ms`,
the value unchanged for unit `ns`, for a missing unit, and for a unit
label not in the nanosecond table; no error is raised for an unknown
unit. -/
theorem gate_length_unit_scaling (props : Properties) (i : ℕ) (g : GateRecord)
    (p : Param) (v : ℚ)
    (hg : props.gates[i]? = some g)
    (hfind : _check_for_item g.parameters "gate_length" = some p)
    (hv : p.value = some v) :
    (p.unit = some "ms" →
       (gate_length_values props)[i]? = some (g.gate, g.qubits, some (v * 1000000))) ∧
    (p.unit = some "ns" →
       (gate_length_values props)[i]? = some (g.gate, g.qubits, some v)) ∧
    (p.unit = none →
       (gate_length_values props)[i]? = some (g.gate, g.qubits, some v)) ∧
    (∀ u, p.unit = some u → _NANOSECOND_UNITS.lookup u = none →
       (gate_length_values props)[i]? = some (g.gate, g.qubits, some v)) := by
  have base : (gate_length_values props)[i]? = some (gateLengthEntry g) := by
    simp [gate_length_values, hg]
  refine ⟨?_, ?_, ?_, ?_⟩
  · intro hu
    rw [base]
    simp [gateLengthEntry, hfind, hv, hu, scaleOf, dictGet, _NANOSECOND_UNITS, List.lookup]
  · intro hu
    rw [base]
    simp [gateLengthEntry, hfind, hv, hu, scaleOf, dictGet, _NANOSECOND_UNITS, List.lookup]
  · intro hu
    rw [base]
    simp [gateLengthEntry, hfind, hv, hu, scaleOf]
  · intro u hu hlk
    rw [base]
    simp [gateLengthEntry, hfind, hv, hu, scaleOf, dictGet, hlk]

/-- Witness for claim C6, at a gate with gate_length 3 ms, scaled to
3000000 ns. -/
theorem gate_length_unit_scaling_witness :
    (gate_length_values ⟨[⟨"u3", [2], [⟨"gate_length", some 3, some "ms"⟩]⟩], []⟩)[0]? =
      some ("u3", [2], some 3000000) := by
  have h := (gate_length_unit_scaling ⟨[⟨"u3", [2], [⟨"gate_length", some 3, some "ms"⟩]⟩], []⟩
      0 ⟨"u3", [2], [⟨"gate_length", some 3, some "ms"⟩]⟩ ⟨"gate_length", some 3, some "ms"⟩ 3
      rfl (by decide) rfl).1 rfl
  norm_num at h
  exact h

/-- Claim C7: `gate_error_values` returns the gate_error value exactly as
reported, with no unit scaling, when present with a value; when the
parameter is absent, or present without a value, it returns the absence
marker. -/
theorem gate_error_verbatim (props : Properties) (i : ℕ) (g : GateRecord)
    (hg : props.gates[i]? = some g) :
    (∀ p v, _check_for_item g.parameters "gate_error" = some p → p.value = some v →
       (gate_error_values props)[i]? = some (g.gate, g.qubits, some v)) ∧
    (_check_for_item g.parameters "gate_error" = none →
       (gate_error_values props)[i]? = some (g.gate, g.qubits, none)) ∧
    (∀ p, _check_for_item g.parameters "gate_error" = some p → p.value = none →
       (gate_error_values props)[i]? = some (g.gate, g.qubits, none)) := by
  have base : (gate_error_values props)[i]? = some (gateErrorEntry g) := by
    simp [gate_error_values, hg]
  refine ⟨?_, ?_, ?_⟩
  · intro p v hfind hv
    rw [base]
    simp [gateErrorEntry, hfind, hv]
  · intro hfind
    rw [base]
    simp [gateErrorEntry, hfind]
  · intro p hfind hv
    rw [base]
    simp [gateErrorEntry, hfind, hv]

/-- Witness for claim C7, at a gate whose gate_error parameter carries a
unit-free value returned verbatim. -/
theorem gate_error_verbatim_witness :
    (gate_error_values ⟨[⟨"x", [0], [⟨"gate_error", some 3, none⟩]⟩], []⟩)[0]? =
      some ("x", [0], some 3) :=
  ((gate_error_verbatim ⟨[⟨"x", [0], [⟨"gate_error", some 3, none⟩]⟩], []⟩ 0
      ⟨"x", [0], [⟨"gate_error", some 3, none⟩]⟩ rfl).1)
    ⟨"gate_error", some 3, none⟩ 3 (by decide) rfl

/-- Claim C8: `readout_error_values` returns exactly one element per
input qubit, in input order: a present valued readout_error parameter
yields its value at the same index, and a qubit whose record has no
valued readout_error parameter yields the absence marker there. -/
theorem readout_order_length (props : Properties) :
    (readout_error_values props).length = props.qubits.length ∧
    (∀ (i : ℕ) (q : List Param) (p : Param) (v : ℚ), props.qubits[i]? = some q →
       _check_for_item q "readout_error" = some p → p.value = some v →
       (readout_error_values props)[i]? = some (some v)) ∧
    (∀ (i : ℕ) (q : List Param), props.qubits[i]? = some q →
       (∀ p ∈ q, p.name = "readout_error" → p.value = none) →
       (readout_error_values props)[i]? = some none) := by
  refine ⟨by simp [readout_error_values], ?_, ?_⟩
  · intro i q p v hq hfind hv
    simp [readout_error_values, hq, readoutEntry, hfind, hv]
  · intro i q hq habs
    rcases hfind : _check_for_item q "readout_error" with _ | p
    · simp [readout_error_values, hq, readoutEntry, hfind]
    · have hm := check_for_item_mem q "readout_error" p hfind
      simp [readout_error_values, hq, readoutEntry, hfind, habs p hm.1 hm.2]

/-- Witness for claim C8, at a two-qubit report whose second qubit lacks
a readout_error parameter. -/
theorem readout_order_length_witness :
    (readout_error_values ⟨[],
        [[⟨"readout_error", some 1, none⟩], [⟨"T1", some 50, some "us"⟩]]⟩)[1]? =
      some none :=
  (readout_order_length ⟨[],
      [[⟨"readout_error", some 1, none⟩], [⟨"T1", some 50, some "us"⟩]]⟩).2.2
    1 [⟨"T1", some 50, some "us"⟩] rfl (by decide)

/-- Claim C9: `_check_for_item` returns the absence marker exactly when
no record matches the target name, and otherwise the first matching
record in sequence order, so with duplicate names only the first match is
returned. -/
theorem check_for_item_spec (lst : List Param) (nm : String) :
    (_check_for_item lst nm = none ↔ ∀ p ∈ lst, p.name ≠ nm) ∧
    (∀ pre p post, lst = pre ++ p :: post → p.name = nm → (∀ q ∈ pre, q.name ≠ nm) →
       _check_for_item lst nm = some p) :=
  ⟨check_for_item_eq_none_iff lst nm,
   fun pre p post hsplit hp hpre => hsplit ▸ check_for_item_first_match pre p post nm hp hpre⟩

/-- Witness for claim C9, at a list with two records named T2: the first
of them is returned. -/
theorem check_for_item_spec_witness :
    _check_for_item [⟨"T1", some 1, none⟩, ⟨"T2", some 2, none⟩, ⟨"T2", some 3, none⟩] "T2" =
      some ⟨"T2", some 2, none⟩ :=
  (check_for_item_spec
      [⟨"T1", some 1, none⟩, ⟨"T2", some 2, none⟩, ⟨"T2", some 3, none⟩] "T2").2
    [⟨"T1", some 1, none⟩] ⟨"T2", some 2, none⟩ [⟨"T2", some 3, none⟩] rfl rfl (by decide)

/-- Claim C10: every tuple `(T1, T2, freq)` that
`thermal_relaxation_values` returns satisfies `T2 ≤ 2 * T1` in the
extended order where infinity is the top element, for every report on
which the function returns at all. -/
theorem thermal_t2_invariant (props : Properties) (res : List (PVal × PVal × PVal))
    (h : thermal_relaxation_values props = some res) :
    ∀ t ∈ res, PVal.leq t.2.1 (PVal.two_mul t.1) = true :=
  thermalList_t2 props.qubits res h

/-- Witness for claim C10, at a one-qubit report with T1 = 50 us and no
T2. -/
theorem thermal_t2_invariant_witness :
    PVal.leq (PVal.val 100) (PVal.two_mul (PVal.val 50)) = true :=
  thermal_t2_invariant ⟨[], [[⟨"T1", some 50, some "us"⟩]]⟩
    [(PVal.val 50, PVal.val 100, PVal.inf)]
    (by simp [thermal_relaxation_values, thermalList, thermalRelaxationQubit, loadMicro,
          _check_for_item, List.filter, scaleOf, dictGet, _MICROSECOND_UNITS, List.lookup,
          PVal.min, PVal.two_mul]
        norm_num)
    (PVal.val 50, PVal.val 100, PVal.inf) (List.mem_singleton.mpr rfl)
